import Mathlib

/-!
Verification of the WebTransport-over-iroh session engine.

The definitions below embed the session-establishment and stream-framing
core of the library: the per-stream and per-datagram WebTransport framing
(stream-type prefix + session-id), the accept-side demultiplexer, the
HTTP/3 CONNECT exchange checks, the control-stream capsule drain, and the
error-code translation between 32-bit application codes and the HTTP/3
reserved code space.

Functions that live in the external web-transport-proto crate (the QUIC
VarInt codec, the stream-type constants, and the HTTP/3 error-code
translation) are modelled from the specification, as noted in their doc
comments.  Everything else is translated from src/session.rs,
src/connect.rs, src/error.rs and src/recv.rs.
-/

namespace WebTransportIroh

/-- Modelled from the spec: QUIC-style variable-length integer encoding
(1/2/4/8 bytes, RFC 9000 §16), as implemented by the external
web-transport-proto crate.  Values below 2^6 use one byte; below 2^14 two
bytes with leading bits 01; below 2^30 four bytes with leading bits 10;
otherwise eight bytes with leading bits 11. -/
def VarInt.encode (v : Nat) : List Nat :=
  if v < 2 ^ 6 then [v]
  else if v < 2 ^ 14 then [2 ^ 6 + v / 2 ^ 8, v % 2 ^ 8]
  else if v < 2 ^ 30 then
    [2 ^ 7 + v / 2 ^ 24, v / 2 ^ 16 % 2 ^ 8, v / 2 ^ 8 % 2 ^ 8, v % 2 ^ 8]
  else
    [2 ^ 7 + 2 ^ 6 + v / 2 ^ 56, v / 2 ^ 48 % 2 ^ 8, v / 2 ^ 40 % 2 ^ 8,
      v / 2 ^ 32 % 2 ^ 8, v / 2 ^ 24 % 2 ^ 8, v / 2 ^ 16 % 2 ^ 8,
      v / 2 ^ 8 % 2 ^ 8, v % 2 ^ 8]

/-- Modelled from the spec: QUIC VarInt decoding.  The two leading bits of
the first byte select the length; returns the decoded value together with
the remaining bytes, or `none` when the input is too short (which is how
a reset-before-full-header read surfaces in the pure model). -/
def VarInt.decode : List Nat → Option (Nat × List Nat)
  | [] => none
  | b0 :: rest =>
    if b0 < 2 ^ 6 then some (b0, rest)
    else if b0 < 2 ^ 7 then
      match rest with
      | b1 :: rest1 => some ((b0 - 2 ^ 6) * 2 ^ 8 + b1, rest1)
      | [] => none
    else if b0 < 2 ^ 7 + 2 ^ 6 then
      match rest with
      | b1 :: b2 :: b3 :: rest3 =>
        some ((b0 - 2 ^ 7) * 2 ^ 24 + b1 * 2 ^ 16 + b2 * 2 ^ 8 + b3, rest3)
      | _ => none
    else
      match rest with
      | b1 :: b2 :: b3 :: b4 :: b5 :: b6 :: b7 :: rest7 =>
        some ((b0 - (2 ^ 7 + 2 ^ 6)) * 2 ^ 56 + b1 * 2 ^ 48 + b2 * 2 ^ 40
          + b3 * 2 ^ 32 + b4 * 2 ^ 24 + b5 * 2 ^ 16 + b6 * 2 ^ 8 + b7, rest7)
      | _ => none

/-- Modelled from the spec: the HTTP/3 unidirectional stream type for
WebTransport streams (StreamUni::WEBTRANSPORT = 0x54). -/
def StreamUni.WEBTRANSPORT : Nat := 0x54

/-- Modelled from the spec: the HTTP/3 QPACK encoder stream type (0x02). -/
def StreamUni.QPACK_ENCODER : Nat := 0x02

/-- Modelled from the spec: the HTTP/3 QPACK decoder stream type (0x03). -/
def StreamUni.QPACK_DECODER : Nat := 0x03

/-- Modelled from the spec: the HTTP/3 frame type that prefixes WebTransport
bidirectional streams (Frame::WEBTRANSPORT = 0x41). -/
def Frame.WEBTRANSPORT : Nat := 0x41

/-- Modelled from the spec: the forward error-code mapping of the
WebTransport-over-HTTP/3 draft (reserved offset + gap skipping), as
implemented by web-transport-proto.  A 32-bit application code is placed
into the reserved HTTP/3 range starting at 0x52e4a40fa8db, skipping one
greased code every 0x1e values. -/
def error_to_http3 (code : Nat) : Nat :=
  0x52e4a40fa8db + code + code / 0x1e

/-- Modelled from the spec: the reverse error-code mapping of the
WebTransport-over-HTTP/3 draft.  Codes outside the reserved range
[0x52e4a40fa8db, 0x52e5ac983162], and greased codes of the form
0x1f * N + 0x21, map to `none`; otherwise the offset is removed and the
grease gaps are collapsed. -/
def error_from_http3 (code : Nat) : Option Nat :=
  if code < 0x52e4a40fa8db ∨ 0x52e5ac983162 < code then none
  else if (code - 0x21) % 0x1f = 0 then none
  else some (code - 0x52e4a40fa8db - (code - 0x52e4a40fa8db) / 0x1f)

/-- The WebTransportError enum of src/error.rs (payloads of the external
endpoint error types are elided). -/
inductive WebTransportErr
  | closed (code : Nat) (reason : String)
  | unknownSession
  | readError
  | writeError
deriving DecidableEq, Repr

/-- The SessionError enum of src/error.rs (payloads of the external
endpoint error types are elided). -/
inductive SessionErr
  | connectionError
  | webTransportError (e : WebTransportErr)
  | sendDatagramError
deriving DecidableEq, Repr

/-- H3SessionState of src/session.rs: the cached session id and the cached
header prefixes written in front of opened streams and datagrams. -/
structure H3SessionState where
  session_id : Nat
  header_uni : List Nat
  header_bi : List Nat
  header_datagram : List Nat
deriving DecidableEq, Repr

/-- H3SessionState::connect (src/session.rs:279-308): the session id is the
stream id of the CONNECT request; the three headers are built by encoding
the stream-type VarInt (for uni/bi) followed by the session-id VarInt. -/
def H3SessionState.connect (session_id : Nat) : H3SessionState :=
  { session_id := session_id
    header_uni := VarInt.encode StreamUni.WEBTRANSPORT ++ VarInt.encode session_id
    header_bi := VarInt.encode Frame.WEBTRANSPORT ++ VarInt.encode session_id
    header_datagram := VarInt.encode session_id }

/-- The Session of src/session.rs: a QUIC connection with an optional H3
state (the connection handle itself is external and not modelled). -/
structure Session where
  h3 : Option H3SessionState
deriving DecidableEq, Repr

/-- Session::open_uni (src/session.rs:108-117): the bytes that end up on the
wire of a freshly opened uni stream, given the application bytes written
after opening.  With H3 state, header_uni is written first (at maximum
priority, so it precedes any application data); without, nothing is
prepended. -/
def Session.open_uni_bytes (s : Session) (app : List Nat) : List Nat :=
  match s.h3 with
  | some h3 => h3.header_uni ++ app
  | none => app

/-- Session::open_bi (src/session.rs:119-128): wire bytes of the send half
of a freshly opened bi stream; with H3 state, header_bi is written first. -/
def Session.open_bi_bytes (s : Session) (app : List Nat) : List Nat :=
  match s.h3 with
  | some h3 => h3.header_bi ++ app
  | none => app

/-- Session::read_datagram (src/session.rs:135-160): with H3 state, decode
the leading VarInt as the session id; a failed decode or a mismatch yields
UnknownSession, otherwise the tail after the VarInt is returned.  Without
H3 state the payload is returned unchanged. -/
def Session.read_datagram (s : Session) (payload : List Nat) :
    Except SessionErr (List Nat) :=
  match s.h3 with
  | none => .ok payload
  | some h3 =>
    match VarInt.decode payload with
    | none => .error (.webTransportError .unknownSession)
    | some (actual_id, rest) =>
      if actual_id ≠ h3.session_id then .error (.webTransportError .unknownSession)
      else .ok rest

/-- Session::send_datagram (src/session.rs:166-182): the buffer submitted to
QUIC; with H3 state, header_datagram is prepended to the data. -/
def Session.send_datagram_buf (s : Session) (data : List Nat) : List Nat :=
  match s.h3 with
  | some h3 => h3.header_datagram ++ data
  | none => data

/-- Session::max_datagram_size (src/session.rs:186-196): the underlying MTU
minus the datagram header length under H3 (saturating subtraction on Nat),
the MTU itself otherwise. -/
def Session.max_datagram_size (s : Session) (mtu : Nat) : Nat :=
  match s.h3 with
  | some h3 => mtu - h3.header_datagram.length
  | none => mtu

/-- Session::close (src/session.rs:199-209): the VarInt code passed to the
underlying connection close.  Under H3 the application code is translated
via error_to_http3 and converted with try_into().unwrap(); `none` models
the panic of that unwrap when the value falls outside the VarInt domain. -/
def Session.close_code (s : Session) (code : Nat) : Option Nat :=
  if s.h3.isSome then
    if error_to_http3 code < 2 ^ 62 then some (error_to_http3 code) else none
  else some code

/-- RecvStream::stop (src/recv.rs:24-28): the VarInt code passed to the
underlying stop.  The application code is translated via error_to_http3
and converted with try_from(..).unwrap(); `none` models the panic of that
unwrap when the value falls outside the VarInt domain. -/
def RecvStream.stop_code (code : Nat) : Option Nat :=
  if error_to_http3 code < 2 ^ 62 then some (error_to_http3 code) else none

/-- The QPACK streams retained by the accept demultiplexer
(H3SessionAccept of src/session.rs:320-334, fields qpack_encoder and
qpack_decoder; a retained stream is modelled by its remaining bytes). -/
structure QpackState where
  qpack_encoder : Option (List Nat)
  qpack_decoder : Option (List Nat)
deriving DecidableEq, Repr

/-- H3SessionAccept::decode_uni (src/session.rs:411-433): read the leading
VarInt as the stream type; if it is WEBTRANSPORT, read and validate the
session-id VarInt, failing with UnknownSession on mismatch.  A failed
VarInt read also maps to UnknownSession (the map_err in the source).
Returns the type and the bytes remaining after the consumed header. -/
def H3SessionAccept.decode_uni (expected_session : Nat) (bytes : List Nat) :
    Except WebTransportErr (Nat × List Nat) :=
  match VarInt.decode bytes with
  | none => .error .unknownSession
  | some (typ, rest) =>
    if typ = StreamUni.WEBTRANSPORT then
      match VarInt.decode rest with
      | none => .error .unknownSession
      | some (session_id, rest2) =>
        if session_id ≠ expected_session then .error .unknownSession
        else .ok (typ, rest2)
    else .ok (typ, rest)

/-- Outcome of one iteration of the poll_accept_uni loop for one resolved
header decode: the stream is surfaced to the caller (Poll::Ready(Ok)), an
error is surfaced (Poll::Ready(Err) — the loop's return type allows it),
or the loop continues with possibly updated QPACK state. -/
inductive UniPoll
  | ready (recv : List Nat)
  | readyErr (e : SessionErr)
  | continued (st : QpackState)
deriving DecidableEq, Repr

/-- The body of H3SessionAccept::poll_accept_uni (src/session.rs:364-408)
for one resolved header decode: decode errors are swallowed with a warning
and the loop continues; WEBTRANSPORT streams are surfaced; QPACK decoder
and encoder streams are retained in the demultiplexer; any other type is
dropped and the loop continues. -/
def H3SessionAccept.poll_accept_uni_step (session_id : Nat) (st : QpackState)
    (bytes : List Nat) : UniPoll :=
  match H3SessionAccept.decode_uni session_id bytes with
  | .error _ => .continued st
  | .ok (typ, recv) =>
    if typ = StreamUni.WEBTRANSPORT then .ready recv
    else if typ = StreamUni.QPACK_DECODER then
      .continued { st with qpack_decoder := some recv }
    else if typ = StreamUni.QPACK_ENCODER then
      .continued { st with qpack_encoder := some recv }
    else .continued st

/-- H3SessionAccept::decode_bi (src/session.rs:473-495): read the leading
VarInt; a non-WEBTRANSPORT frame type yields `ok none` (ignored stream);
otherwise read and validate the session-id VarInt, failing with
UnknownSession on mismatch.  The recv half is modelled by its remaining
bytes; the send half carries no wire state and is elided. -/
def H3SessionAccept.decode_bi (expected_session : Nat) (bytes : List Nat) :
    Except WebTransportErr (Option (List Nat)) :=
  match VarInt.decode bytes with
  | none => .error .unknownSession
  | some (typ, rest) =>
    if typ ≠ Frame.WEBTRANSPORT then .ok none
    else
      match VarInt.decode rest with
      | none => .error .unknownSession
      | some (session_id, rest2) =>
        if session_id ≠ expected_session then .error .unknownSession
        else .ok (some rest2)

/-- Outcome of one iteration of the poll_accept_bi loop for one resolved
header decode. -/
inductive BiPoll
  | ready (recv : List Nat)
  | readyErr (e : SessionErr)
  | continued
deriving DecidableEq, Repr

/-- The body of H3SessionAccept::poll_accept_bi (src/session.rs:435-470)
for one resolved header decode: decode errors are swallowed with a warning
and the loop continues; `ok none` (unknown frame type) also continues;
`ok some` surfaces the stream pair to the caller. -/
def H3SessionAccept.poll_accept_bi_step (session_id : Nat) (bytes : List Nat) :
    BiPoll :=
  match H3SessionAccept.decode_bi session_id bytes with
  | .error _ => .continued
  | .ok none => .continued
  | .ok (some recv) => .ready recv

/-- The fields of web_transport_proto::ConnectRequest that the CONNECT
checks inspect: the offered subprotocol list. -/
structure ConnectRequest where
  protocols : List String
deriving DecidableEq, Repr

/-- The fields of web_transport_proto::ConnectResponse that the CONNECT
checks inspect: the HTTP status and the optionally selected subprotocol. -/
structure ConnectResponse where
  status : Nat
  protocol : Option String
deriving DecidableEq, Repr

/-- The ConnectError enum of src/connect.rs (payloads of the external
error types are elided). -/
inductive ConnectErr
  | unexpectedEnd
  | protoError
  | connectionError
  | readError
  | writeError
  | errorStatus (status : Nat)
  | protocolMismatch (protocol : String)
deriving DecidableEq, Repr

/-- The response-validation part of Connected::open (src/connect.rs:118-151):
a non-200 status fails with ErrorStatus; a selected subprotocol outside the
request's offered list fails with ProtocolMismatch; otherwise the exchange
succeeds. -/
def Connected.open_check (request : ConnectRequest) (response : ConnectResponse) :
    Except ConnectErr Unit :=
  if response.status ≠ 200 then .error (.errorStatus response.status)
  else
    match response.protocol with
    | some protocol =>
      if request.protocols.contains protocol then .ok ()
      else .error (.protocolMismatch protocol)
    | none => .ok ()

/-- The web_transport_proto::Capsule variants handled by the control-stream
drain. -/
inductive Capsule
  | closeWebTransportSession (code : Nat) (reason : String)
  | grease
  | unknown (typ : Nat) (payload : List Nat)
deriving DecidableEq, Repr

/-- One result of Capsule::read on the CONNECT recv stream: a decoded
capsule (Ok(Some)), end of stream (Ok(None)), or a decode error (Err). -/
inductive CapsuleRead
  | capsule (c : Capsule)
  | eof
  | decodeErr
deriving DecidableEq, Repr

/-- Connected::run_closed (src/connect.rs:162-183) over the sequence of
capsule reads the control stream will produce: loop until a
CloseWebTransportSession capsule (terminate with its code and reason),
EOF (terminate with 0, "stream closed"), or a decode error (terminate
with 1, "capsule error"); Grease and Unknown capsules are skipped.
`none` means the sequence was exhausted with the loop still running. -/
def Connected.run_closed : List CapsuleRead → Option (Nat × String)
  | [] => none
  | .capsule (.closeWebTransportSession code reason) :: _ => some (code, reason)
  | .capsule .grease :: rest => Connected.run_closed rest
  | .capsule (.unknown _ _) :: rest => Connected.run_closed rest
  | .eof :: _ => some (0, "stream closed")
  | .decodeErr :: _ => some (1, "capsule error")

/-- The iroh endpoint::ReadError variants (payloads of the external error
types are elided; the reset code is the raw VarInt). -/
inductive EndpointReadErr
  | reset (code : Nat)
  | connectionLost
  | closedStream
  | zeroRttRejected
deriving DecidableEq, Repr

/-- The ReadError enum of src/error.rs. -/
inductive ReadErr
  | sessionError (e : SessionErr)
  | reset (code : Nat)
  | invalidReset (code : Nat)
  | closedStream
deriving DecidableEq, Repr

/-- From<endpoint::ReadError> for ReadError (src/error.rs:121-135): an
incoming reset code is remapped via error_from_http3, falling back to
InvalidReset carrying the raw VarInt when the reverse mapping fails.
`none` models the panic of the unreachable 0-RTT arm. -/
def ReadErr.from_endpoint : EndpointReadErr → Option ReadErr
  | .reset code =>
    some (match error_from_http3 code with
      | some c => .reset c
      | none => .invalidReset code)
  | .connectionLost => some (.sessionError .connectionError)
  | .closedStream => some .closedStream
  | .zeroRttRejected => none

/-- The iroh endpoint::WriteError variants (payloads elided; the stop code
is the raw VarInt). -/
inductive EndpointWriteErr
  | stopped (code : Nat)
  | closedStream
  | connectionLost
  | zeroRttRejected
deriving DecidableEq, Repr

/-- The WriteError enum of src/error.rs. -/
inductive WriteErr
  | stopped (code : Nat)
  | invalidStopped (code : Nat)
  | sessionError (e : SessionErr)
  | closedStream
deriving DecidableEq, Repr

/-- From<endpoint::WriteError> for WriteError (src/error.rs:88-102): an
incoming stop code is remapped via error_from_http3, falling back to
InvalidStopped carrying the raw VarInt when the reverse mapping fails.
`none` models the panic of the unreachable 0-RTT arm. -/
def WriteErr.from_endpoint : EndpointWriteErr → Option WriteErr
  | .stopped code =>
    some (match error_from_http3 code with
      | some c => .stopped c
      | none => .invalidStopped code)
  | .closedStream => some .closedStream
  | .connectionLost => some (.sessionError .connectionError)
  | .zeroRttRejected => none

/-- The iroh endpoint::ResetError variants. -/
inductive ResetErr
  | connectionLost
  | zeroRttRejected
deriving DecidableEq, Repr

/-- RecvStream::received_reset (src/recv.rs:63-72): a received reset code is
remapped with error_from_http3(..).unwrap(); the outer `none` models a
panic — either that unwrap failing (code outside the reserved range) or
the unreachable 0-RTT arm. -/
def RecvStream.received_reset (inner : Except ResetErr (Option Nat)) :
    Option (Except SessionErr (Option Nat)) :=
  match inner with
  | .ok none => some (.ok none)
  | .ok (some code) =>
    match error_from_http3 code with
    | some c => some (.ok (some c))
    | none => none
  | .error .connectionLost => some (.error .connectionError)
  | .error .zeroRttRejected => none

/-! ### Helper lemmas -/

/-- Decoding is a left inverse of encoding for every value in the QUIC
VarInt domain, with the remaining bytes passed through. -/
theorem VarInt.decode_encode (v : Nat) (rest : List Nat) (h : v < 2 ^ 62) :
    VarInt.decode (VarInt.encode v ++ rest) = some (v, rest) := by
  by_cases h1 : v < 2 ^ 6
  · simp only [VarInt.encode]
    rw [if_pos h1]
    simp only [List.cons_append, List.nil_append, VarInt.decode]
    rw [if_pos h1]
  · by_cases h2 : v < 2 ^ 14
    · simp only [VarInt.encode]
      rw [if_neg h1, if_pos h2]
      simp only [List.cons_append, List.nil_append, VarInt.decode]
      rw [if_neg (by omega), if_pos (by omega)]
      simp only [Option.some.injEq, Prod.mk.injEq, and_true]
      omega
    · by_cases h3 : v < 2 ^ 30
      · simp only [VarInt.encode]
        rw [if_neg h1, if_neg h2, if_pos h3]
        simp only [List.cons_append, List.nil_append, VarInt.decode]
        rw [if_neg (by omega), if_neg (by omega), if_pos (by omega)]
        simp only [Option.some.injEq, Prod.mk.injEq, and_true]
        omega
      · simp only [VarInt.encode]
        rw [if_neg h1, if_neg h2, if_neg h3]
        simp only [List.cons_append, List.nil_append, VarInt.decode]
        rw [if_neg (by omega), if_neg (by omega), if_neg (by omega)]
        simp only [Option.some.injEq, Prod.mk.injEq, and_true]
        omega

/-! ### Claims -/

/-- Claim C2: for every 32-bit application error code c, the HTTP/3 code
translation round-trips: error_from_http3 (error_to_http3 c) = some c. -/
theorem error_http3_round_trip (c : Nat) (h : c < 2 ^ 32) :
    error_from_http3 (error_to_http3 c) = some c := by
  simp only [error_to_http3, error_from_http3]
  rw [if_neg (by omega), if_neg (by omega)]
  simp only [Option.some.injEq]
  omega

/-- Witness for C2: the round-trip at the largest 32-bit code. -/
theorem error_http3_round_trip_witness :
    error_from_http3 (error_to_http3 4294967295) = some 4294967295 :=
  error_http3_round_trip 4294967295 (by norm_num)

/-- Claim C10: for every 32-bit application error code, the forward mapping
fits in a QUIC VarInt (is below 2^62), so the VarInt conversions unwrapped
by Session::close (on an H3 session) and RecvStream::stop never panic. -/
theorem error_to_http3_fits_varint (c : Nat) (h : c < 2 ^ 32) :
    error_to_http3 c < 2 ^ 62
    ∧ RecvStream.stop_code c = some (error_to_http3 c)
    ∧ ∀ s : Session, s.h3.isSome → Session.close_code s c = some (error_to_http3 c) := by
  have hb : error_to_http3 c < 2 ^ 62 := by
    simp only [error_to_http3]
    omega
  refine ⟨hb, ?_, ?_⟩
  · unfold RecvStream.stop_code
    rw [if_pos hb]
  · intro s hs
    unfold Session.close_code
    rw [if_pos hs, if_pos hb]

/-- Witness for C10: the bound and both non-panicking conversions at the
largest 32-bit code, on a session with H3 state. -/
theorem error_to_http3_fits_varint_witness :
    error_to_http3 4294967295 < 2 ^ 62
    ∧ RecvStream.stop_code 4294967295 = some (error_to_http3 4294967295)
    ∧ Session.close_code ⟨some (H3SessionState.connect 4)⟩ 4294967295
        = some (error_to_http3 4294967295) := by
  have h := error_to_http3_fits_varint 4294967295 (by norm_num)
  exact ⟨h.1, h.2.1, h.2.2 ⟨some (H3SessionState.connect 4)⟩ rfl⟩

/-- Claim C1: on a Session with H3 state, every stream opened via
open_uni/open_bi carries, before any application data, exactly the bytes
VarInt(stream-type) followed by VarInt(session_id) — StreamUni::WEBTRANSPORT
for uni streams and Frame::WEBTRANSPORT for bi streams — and these prefixes
are byte-for-byte the cached header_uni/header_bi.  Decoding the wire bytes
recovers the stream type and then the session id. -/
theorem open_streams_write_header_first (sid : Nat) (app : List Nat)
    (h : sid < 2 ^ 62) :
    Session.open_uni_bytes ⟨some (H3SessionState.connect sid)⟩ app
      = (VarInt.encode StreamUni.WEBTRANSPORT ++ VarInt.encode sid) ++ app
    ∧ Session.open_bi_bytes ⟨some (H3SessionState.connect sid)⟩ app
      = (VarInt.encode Frame.WEBTRANSPORT ++ VarInt.encode sid) ++ app
    ∧ (H3SessionState.connect sid).header_uni
      = VarInt.encode StreamUni.WEBTRANSPORT ++ VarInt.encode sid
    ∧ (H3SessionState.connect sid).header_bi
      = VarInt.encode Frame.WEBTRANSPORT ++ VarInt.encode sid
    ∧ VarInt.decode (Session.open_uni_bytes ⟨some (H3SessionState.connect sid)⟩ app)
      = some (StreamUni.WEBTRANSPORT, VarInt.encode sid ++ app)
    ∧ VarInt.decode (Session.open_bi_bytes ⟨some (H3SessionState.connect sid)⟩ app)
      = some (Frame.WEBTRANSPORT, VarInt.encode sid ++ app)
    ∧ VarInt.decode (VarInt.encode sid ++ app) = some (sid, app) := by
  refine ⟨rfl, rfl, rfl, rfl, ?_, ?_, VarInt.decode_encode sid app h⟩
  · show VarInt.decode ((VarInt.encode StreamUni.WEBTRANSPORT
      ++ VarInt.encode sid) ++ app) = _
    rw [List.append_assoc]
    exact VarInt.decode_encode StreamUni.WEBTRANSPORT _ (by norm_num [StreamUni.WEBTRANSPORT])
  · show VarInt.decode ((VarInt.encode Frame.WEBTRANSPORT
      ++ VarInt.encode sid) ++ app) = _
    rw [List.append_assoc]
    exact VarInt.decode_encode Frame.WEBTRANSPORT _ (by norm_num [Frame.WEBTRANSPORT])

/-- Witness for C1: the header bytes of a session with session id 4 and
application payload [104, 105]. -/
theorem open_streams_write_header_first_witness :
    Session.open_uni_bytes ⟨some (H3SessionState.connect 4)⟩ [104, 105]
      = (VarInt.encode StreamUni.WEBTRANSPORT ++ VarInt.encode 4) ++ [104, 105]
    ∧ VarInt.decode (Session.open_bi_bytes ⟨some (H3SessionState.connect 4)⟩ [104, 105])
      = some (Frame.WEBTRANSPORT, VarInt.encode 4 ++ [104, 105]) := by
  have h := open_streams_write_header_first 4 [104, 105] (by norm_num)
  exact ⟨h.1, h.2.2.2.2.2.1⟩

/-- Claim C5: read_datagram on an H3 Session parses the leading VarInt as a
session id, failing with UnknownSession when the parse fails or the value
differs from ours, and otherwise returns exactly the payload after the
VarInt; on a raw Session the whole payload is returned unchanged. -/
theorem read_datagram_checks_session_id (sid : Nat) (payload : List Nat) :
    (VarInt.decode payload = none →
      Session.read_datagram ⟨some (H3SessionState.connect sid)⟩ payload
        = .error (.webTransportError .unknownSession))
    ∧ (∀ id rest, VarInt.decode payload = some (id, rest) → id ≠ sid →
      Session.read_datagram ⟨some (H3SessionState.connect sid)⟩ payload
        = .error (.webTransportError .unknownSession))
    ∧ (∀ rest, VarInt.decode payload = some (sid, rest) →
      Session.read_datagram ⟨some (H3SessionState.connect sid)⟩ payload = .ok rest)
    ∧ Session.read_datagram ⟨none⟩ payload = .ok payload := by
  refine ⟨?_, ?_, ?_, rfl⟩
  · intro hd
    simp [Session.read_datagram, hd]
  · intro id rest hd hne
    simp [Session.read_datagram, hd, H3SessionState.connect, hne]
  · intro rest hd
    simp [Session.read_datagram, hd, H3SessionState.connect]

/-- Witness for C5: a datagram carrying session id 6 on a session whose id
is 5 yields UnknownSession; one carrying 5 yields the tail. -/
theorem read_datagram_checks_session_id_witness :
    Session.read_datagram ⟨some (H3SessionState.connect 5)⟩ [6, 1, 2]
      = .error (.webTransportError .unknownSession)
    ∧ Session.read_datagram ⟨some (H3SessionState.connect 5)⟩ [5, 1, 2]
      = .ok [1, 2] := by
  refine ⟨(read_datagram_checks_session_id 5 [6, 1, 2]).2.1 6 [1, 2] ?_ ?_,
    (read_datagram_checks_session_id 5 [5, 1, 2]).2.2.1 [1, 2] ?_⟩
  · decide
  · decide
  · decide

/-- Claim C6: send_datagram on an H3 Session submits exactly
VarInt(session_id) followed by the caller's data (and the prefix decodes
back to the session id), and max_datagram_size returns the underlying MTU
minus the session-id prefix length, saturating at 0; on a raw Session both
operations pass data and MTU through unchanged. -/
theorem send_datagram_prepends_session_id (sid : Nat) (data : List Nat)
    (mtu : Nat) (h : sid < 2 ^ 62) :
    Session.send_datagram_buf ⟨some (H3SessionState.connect sid)⟩ data
      = VarInt.encode sid ++ data
    ∧ VarInt.decode (Session.send_datagram_buf ⟨some (H3SessionState.connect sid)⟩ data)
      = some (sid, data)
    ∧ Session.max_datagram_size ⟨some (H3SessionState.connect sid)⟩ mtu
      = mtu - (VarInt.encode sid).length
    ∧ (mtu ≤ (VarInt.encode sid).length →
      Session.max_datagram_size ⟨some (H3SessionState.connect sid)⟩ mtu = 0)
    ∧ Session.send_datagram_buf ⟨none⟩ data = data
    ∧ Session.max_datagram_size ⟨none⟩ mtu = mtu := by
  refine ⟨rfl, VarInt.decode_encode sid data h, rfl, ?_, rfl, rfl⟩
  intro hle
  show mtu - (VarInt.encode sid).length = 0
  omega

/-- Witness for C6: a datagram with payload [1, 2] on a session with id 4
and MTU 1200, plus the saturating case at MTU 0. -/
theorem send_datagram_prepends_session_id_witness :
    Session.send_datagram_buf ⟨some (H3SessionState.connect 4)⟩ [1, 2]
      = VarInt.encode 4 ++ [1, 2]
    ∧ Session.max_datagram_size ⟨some (H3SessionState.connect 4)⟩ 1200
      = 1200 - (VarInt.encode 4).length
    ∧ Session.max_datagram_size ⟨some (H3SessionState.connect 4)⟩ 0 = 0 := by
  have h1 := send_datagram_prepends_session_id 4 [1, 2] 1200 (by norm_num)
  have h0 := send_datagram_prepends_session_id 4 [1, 2] 0 (by norm_num)
  exact ⟨h1.1, h1.2.2.1, h0.2.2.2.1 (by decide)⟩

/-- Claim C3: the accept demultiplexer surfaces an incoming uni stream to
the caller if and only if its header decodes to the leading VarInt
StreamUni::WEBTRANSPORT followed by a VarInt equal to our session id; a
stream whose leading VarInt is QPACK_DECODER or QPACK_ENCODER is retained
inside the demultiplexer (and so never surfaced); any other leading VarInt
is dropped and never surfaced. -/
theorem accept_uni_classifies_streams (sid : Nat) (st : QpackState)
    (bytes : List Nat) :
    (∀ rest, H3SessionAccept.poll_accept_uni_step sid st bytes = .ready rest ↔
      ∃ r1, VarInt.decode bytes = some (StreamUni.WEBTRANSPORT, r1)
        ∧ VarInt.decode r1 = some (sid, rest))
    ∧ (∀ r1, VarInt.decode bytes = some (StreamUni.QPACK_DECODER, r1) →
      H3SessionAccept.poll_accept_uni_step sid st bytes
        = .continued { st with qpack_decoder := some r1 })
    ∧ (∀ r1, VarInt.decode bytes = some (StreamUni.QPACK_ENCODER, r1) →
      H3SessionAccept.poll_accept_uni_step sid st bytes
        = .continued { st with qpack_encoder := some r1 })
    ∧ (∀ typ r1, VarInt.decode bytes = some (typ, r1) →
      typ ≠ StreamUni.WEBTRANSPORT → typ ≠ StreamUni.QPACK_DECODER →
      typ ≠ StreamUni.QPACK_ENCODER →
      H3SessionAccept.poll_accept_uni_step sid st bytes = .continued st) := by
  refine ⟨?_, ?_, ?_, ?_⟩
  · intro rest
    constructor
    · intro hr
      rcases hd : VarInt.decode bytes with _ | ⟨typ, r1⟩
      · simp [H3SessionAccept.poll_accept_uni_step, H3SessionAccept.decode_uni,
          hd] at hr
      · by_cases ht : typ = StreamUni.WEBTRANSPORT
        · subst ht
          rcases hd2 : VarInt.decode r1 with _ | ⟨sid2, r2⟩
          · simp [H3SessionAccept.poll_accept_uni_step,
              H3SessionAccept.decode_uni, hd, hd2] at hr
          · by_cases hs2 : sid2 = sid
            · subst hs2
              simp [H3SessionAccept.poll_accept_uni_step,
                H3SessionAccept.decode_uni, hd, hd2] at hr
              exact ⟨r1, rfl, by rw [hd2, hr]⟩
            · simp [H3SessionAccept.poll_accept_uni_step,
                H3SessionAccept.decode_uni, hd, hd2, hs2] at hr
        · simp only [H3SessionAccept.poll_accept_uni_step,
            H3SessionAccept.decode_uni, hd, ht, if_false, if_neg ht] at hr
          split_ifs at hr
    · rintro ⟨r1, hd, hd2⟩
      simp [H3SessionAccept.poll_accept_uni_step, H3SessionAccept.decode_uni,
        hd, hd2]
  · intro r1 hd
    simp [H3SessionAccept.poll_accept_uni_step, H3SessionAccept.decode_uni, hd,
      StreamUni.QPACK_DECODER, StreamUni.QPACK_ENCODER, StreamUni.WEBTRANSPORT]
  · intro r1 hd
    simp [H3SessionAccept.poll_accept_uni_step, H3SessionAccept.decode_uni, hd,
      StreamUni.QPACK_DECODER, StreamUni.QPACK_ENCODER, StreamUni.WEBTRANSPORT]
  · intro typ r1 hd h1 h2 h3
    simp [H3SessionAccept.poll_accept_uni_step, H3SessionAccept.decode_uni, hd,
      h1, h2, h3]

/-- Witness for C3: a stream starting with the two-byte VarInt encoding of
0x54 followed by the session id 7 is surfaced with its remaining byte; a
QPACK decoder stream (type 0x03) is retained. -/
theorem accept_uni_classifies_streams_witness :
    H3SessionAccept.poll_accept_uni_step 7 ⟨none, none⟩ [64, 84, 7, 1] = .ready [1]
    ∧ H3SessionAccept.poll_accept_uni_step 7 ⟨none, none⟩ [3, 9]
      = .continued ⟨none, some [9]⟩ := by
  constructor
  · exact ((accept_uni_classifies_streams 7 ⟨none, none⟩ [64, 84, 7, 1]).1 [1]).mpr
      ⟨[7, 1], by decide, by decide⟩
  · exact (accept_uni_classifies_streams 7 ⟨none, none⟩ [3, 9]).2.1 [9] (by decide)

/-- Counterexample for C4: a uni stream whose header is WEBTRANSPORT
followed by session id 6 arrives on a session whose id is 5.  The header
decode does fail with UnknownSession, but the accept loop swallows the
error and continues (it does not return Poll::Ready(Err)); the same holds
for the bidirectional case.  The failure therefore never surfaces to the
caller of the current accept_uni/accept_bi call. -/
theorem accept_mismatch_not_surfaced_counterexample :
    H3SessionAccept.decode_uni 5 [64, 84, 6] = .error .unknownSession
    ∧ H3SessionAccept.poll_accept_uni_step 5 ⟨none, none⟩ [64, 84, 6]
      = .continued ⟨none, none⟩
    ∧ H3SessionAccept.decode_bi 5 [64, 65, 6] = .error .unknownSession
    ∧ H3SessionAccept.poll_accept_bi_step 5 [64, 65, 6] = .continued := by
  exact ⟨rfl, rfl, rfl, rfl⟩

/-- Claim C4 (amended): for every incoming uni or bi stream whose header
carries the WebTransport stream type followed by a session-id VarInt
different from ours, the header-decode task fails with UnknownSession, but
the accept loop swallows that error (logging a warning) and drops the
stream: the current accept_uni/accept_bi call continues waiting and the
failure is never surfaced to the caller. -/
theorem accept_mismatch_swallowed (sid sid2 : Nat) (st : QpackState)
    (ubytes ur1 urest bbytes br1 brest : List Nat)
    (hu1 : VarInt.decode ubytes = some (StreamUni.WEBTRANSPORT, ur1))
    (hu2 : VarInt.decode ur1 = some (sid2, urest))
    (hb1 : VarInt.decode bbytes = some (Frame.WEBTRANSPORT, br1))
    (hb2 : VarInt.decode br1 = some (sid2, brest))
    (hne : sid2 ≠ sid) :
    H3SessionAccept.decode_uni sid ubytes = .error .unknownSession
    ∧ H3SessionAccept.poll_accept_uni_step sid st ubytes = .continued st
    ∧ H3SessionAccept.decode_bi sid bbytes = .error .unknownSession
    ∧ H3SessionAccept.poll_accept_bi_step sid bbytes = .continued := by
  have hu : H3SessionAccept.decode_uni sid ubytes = .error .unknownSession := by
    simp [H3SessionAccept.decode_uni, hu1, hu2, hne]
  have hb : H3SessionAccept.decode_bi sid bbytes = .error .unknownSession := by
    simp [H3SessionAccept.decode_bi, hb1, hb2, hne]
  refine ⟨hu, ?_, hb, ?_⟩
  · unfold H3SessionAccept.poll_accept_uni_step
    rw [hu]
  · unfold H3SessionAccept.poll_accept_bi_step
    rw [hb]

/-- Witness for the amended C4: session id 5, incoming uni stream
[64, 84, 6] and bi stream [64, 65, 6], both carrying the mismatched
session id 6. -/
theorem accept_mismatch_swallowed_witness :
    H3SessionAccept.decode_uni 5 [64, 84, 6, 0] = .error .unknownSession
    ∧ H3SessionAccept.poll_accept_uni_step 5 ⟨some [1], none⟩ [64, 84, 6, 0]
      = .continued ⟨some [1], none⟩
    ∧ H3SessionAccept.decode_bi 5 [64, 65, 6, 0] = .error .unknownSession
    ∧ H3SessionAccept.poll_accept_bi_step 5 [64, 65, 6, 0] = .continued :=
  accept_mismatch_swallowed 5 6 ⟨some [1], none⟩ [64, 84, 6, 0] [6, 0] [0]
    [64, 65, 6, 0] [6, 0] [0] (by decide) (by decide) (by decide) (by decide)
    (by decide)

/-- Counterexample for C7: the incoming reset code 0 (below the reserved
HTTP/3 range) fails the reverse mapping, and RecvStream::received_reset
panics on it — the unwrap of error_from_http3 (modelled by the `none`
result) — instead of surfacing an InvalidReset value. -/
theorem received_reset_panics_counterexample :
    error_from_http3 0 = none
    ∧ RecvStream.received_reset (.ok (some 0)) = none := by
  exact ⟨by decide, rfl⟩

/-- Claim C7 (amended): when an incoming QUIC reset or stop code fails the
reverse mapping, the ReadError and WriteError conversions surface
InvalidReset (reads) and InvalidStopped (writes) carrying the raw VarInt
without panicking; RecvStream::received_reset, however, unwraps the
reverse mapping and panics on such a code. -/
theorem invalid_codes_surfaced (code : Nat) (h : error_from_http3 code = none) :
    ReadErr.from_endpoint (.reset code) = some (.invalidReset code)
    ∧ WriteErr.from_endpoint (.stopped code) = some (.invalidStopped code)
    ∧ RecvStream.received_reset (.ok (some code)) = none := by
  refine ⟨?_, ?_, ?_⟩
  · simp [ReadErr.from_endpoint, h]
  · simp [WriteErr.from_endpoint, h]
  · simp [RecvStream.received_reset, h]

/-- Witness for the amended C7: the reset/stop code 7 lies outside the
reserved range, is surfaced as InvalidReset/InvalidStopped by the stream
error conversions, and makes received_reset panic. -/
theorem invalid_codes_surfaced_witness :
    ReadErr.from_endpoint (.reset 7) = some (.invalidReset 7)
    ∧ WriteErr.from_endpoint (.stopped 7) = some (.invalidStopped 7)
    ∧ RecvStream.received_reset (.ok (some 7)) = none :=
  invalid_codes_surfaced 7 (by decide)

/-- Claim C8: a client CONNECT exchange fails with ErrorStatus(status) when
the response status is not 200; it fails with ProtocolMismatch(name) when
the response selects a subprotocol outside the request's offered list; and
it succeeds otherwise. -/
theorem connect_open_validates_response (request : ConnectRequest)
    (response : ConnectResponse) :
    (response.status ≠ 200 →
      Connected.open_check request response = .error (.errorStatus response.status))
    ∧ (∀ protocol, response.status = 200 → response.protocol = some protocol →
      request.protocols.contains protocol = false →
      Connected.open_check request response = .error (.protocolMismatch protocol))
    ∧ (response.status = 200 → response.protocol = none →
      Connected.open_check request response = .ok ())
    ∧ (∀ protocol, response.status = 200 → response.protocol = some protocol →
      request.protocols.contains protocol = true →
      Connected.open_check request response = .ok ()) := by
  refine ⟨?_, ?_, ?_, ?_⟩
  · intro hs
    simp [Connected.open_check, hs]
  · intro protocol hs hp hc
    simp only [Connected.open_check, hs, hp, hc]
    simp
  · intro hs hp
    simp [Connected.open_check, hs, hp]
  · intro protocol hs hp hc
    simp only [Connected.open_check, hs, hp, hc]
    simp

/-- Witness for C8: a request offering ["a", "b"] answered with status 200
and protocol "c" fails with ProtocolMismatch "c"; answered with status 404
it fails with ErrorStatus 404. -/
theorem connect_open_validates_response_witness :
    Connected.open_check ⟨["a", "b"]⟩ ⟨200, some "c"⟩
      = .error (.protocolMismatch "c")
    ∧ Connected.open_check ⟨["a", "b"]⟩ ⟨404, some "a"⟩
      = .error (.errorStatus 404) := by
  refine ⟨(connect_open_validates_response ⟨["a", "b"]⟩ ⟨200, some "c"⟩).2.1
      "c" rfl rfl ?_,
    (connect_open_validates_response ⟨["a", "b"]⟩ ⟨404, some "a"⟩).1 ?_⟩
  · decide
  · decide

/-- Claim C9: the control-stream drain run_closed terminates the session
with the code and reason of a received CloseWebTransportSession capsule,
with (0, "stream closed") at EOF, and with (1, "capsule error") on a
capsule decode error; Grease capsules are ignored and Unknown capsules are
skipped, neither terminating the loop. -/
theorem run_closed_terminal_values (code : Nat) (reason : String) (typ : Nat)
    (payload : List Nat) (rest : List CapsuleRead) :
    Connected.run_closed (.capsule (.closeWebTransportSession code reason) :: rest)
      = some (code, reason)
    ∧ Connected.run_closed (.eof :: rest) = some (0, "stream closed")
    ∧ Connected.run_closed (.decodeErr :: rest) = some (1, "capsule error")
    ∧ Connected.run_closed (.capsule .grease :: rest) = Connected.run_closed rest
    ∧ Connected.run_closed (.capsule (.unknown typ payload) :: rest)
      = Connected.run_closed rest := by
  exact ⟨rfl, rfl, rfl, rfl, rfl⟩

end WebTransportIroh
